import Mathlib

/-!
Verification of the `fetch-wkhtmltopdf-lib.py` utility from nccgroup/scrying.

The script is a linear sequence of effects: validate the platform argument,
create a cache directory, download an artefact if absent (streaming it in
1024-byte chunks with a spinner), run platform-specific extraction commands,
and copy the resulting shared library into the invocation directory.

We embed the script as a pure function from an environment (initial file
system, HTTP response, behaviour of the external extraction tools, initial
working directory) to a run result (trace of effects, final file system,
final working directory, outcome).
-/

/-- Byte strings are lists of naturals (each byte a `Nat`). -/
abbrev Bytes := List Nat

/-- Observable effects of a run, in order. -/
inductive Event where
  /-- `print(s)`: a line written to stdout. -/
  | printLine (s : String)
  /-- `sys.stdout.write(c)` of a single character (spinner glyph or erase). -/
  | putChar (c : Char)
  /-- `pathlib.Path(p).mkdir(parents=True, exist_ok=True)`. -/
  | mkdir (path : String)
  /-- `requests.get(url, stream=True)`: a network request issued. -/
  | httpGet (url : String)
  /-- one `file.write(chunk)` inside the download loop. -/
  | chunkWrite (chunk : Bytes)
  /-- net effect of the `with open(filepath, "wb")` block: the file's content. -/
  | writeFile (path : String) (content : Bytes)
  /-- `os.system(cmd)`. -/
  | system (cmd : String)
  /-- `os.chdir(path)`. -/
  | chdir (path : String)
  /-- `shutil.copy(src, ".")`, recorded with the working directory that `.`
  resolves to at the moment of the call. -/
  | copy (src : String) (destDir : String)
  deriving DecidableEq, Repr

/-- How the process ends. -/
inductive Outcome where
  /-- `exit()` was called: clean early termination. -/
  | exited
  /-- an uncaught `TypeError` (e.g. from `str + int`). -/
  | typeError (msg : String)
  /-- an uncaught `KeyError` from a dict lookup. -/
  | keyError (key : String)
  /-- an uncaught `FileNotFoundError` from `shutil.copy`. -/
  | fileNotFound (path : String)
  /-- the script ran to the end of `main`. -/
  | completed
  deriving DecidableEq, Repr

/-- A Python value, enough to model the `str + int` concatenation bug. -/
inductive PyVal where
  | str (s : String)
  | int (n : Int)
  deriving DecidableEq, Repr

/-- Python's `+` on `str`/`int` operands: `str + int` raises `TypeError`. -/
def pyAdd : PyVal → PyVal → Except String PyVal
  | .str a, .str b => .ok (.str (a ++ b))
  | .str _, .int _ => .error "can only concatenate str (not int) to str"
  | .int a, .int b => .ok (.int (a + b))
  | .int _, .str _ => .error "unsupported operand type(s) for +: int and str"

def pyStr : PyVal → String
  | .str s => s
  | .int n => toString n

/-- The environment a run executes against. -/
structure Env where
  /-- initial file system: path (as the script writes it) to file content. -/
  initFS : String → Option Bytes
  /-- HTTP status code the GET for the artefact URL returns. -/
  status : Nat
  /-- body of that HTTP response. -/
  body : Bytes
  /-- net effect of the platform's external extraction commands: given the
  platform and the cached archive's content, the content (if any) the
  extraction tools leave at each path. -/
  extractFS : String → Bytes → String → Option Bytes
  /-- absolute working directory of the invocation (`os.getcwd()`). -/
  initCwd : String

/-- Result of a run. -/
structure RunResult where
  events : List Event
  fs : String → Option Bytes
  cwd : String
  outcome : Outcome

/-- The `artefacts` dict from the script: platform to artefact URL. -/
def artefacts : List (String × String) :=
  [("linux", "https://github.com/wkhtmltopdf/packaging/releases/download/0.12.6-1/wkhtmltox_0.12.6-1.bionic_amd64.deb"),
   ("windows", "https://github.com/wkhtmltopdf/packaging/releases/download/0.12.6-1/wkhtmltox-0.12.6-1.msvc2015-win64.exe"),
   ("macos", "https://github.com/wkhtmltopdf/packaging/releases/download/0.12.6-1/wkhtmltox-0.12.6-1.macos-cocoa.pkg")]

/-- Python `s.split(sep)` on a character list: splits at every separator,
keeping empty segments, so the result is always nonempty. -/
def pySplit (sep : Char) : List Char → List (List Char)
  | [] => [[]]
  | c :: rest =>
    let r := pySplit sep rest
    if c = sep then [] :: r
    else
      match r with
      | [] => [[c]]
      | h :: t => (c :: h) :: t

/-- `url.split('/')[-1]`: the final path segment of a URL or path. -/
def lastSegment (s : String) : String :=
  String.mk ((pySplit '/' s.toList).getLastD [])

/-- Does a path string start with `'/'` (i.e. is it absolute)? -/
def isAbsolute (p : String) : Bool :=
  match p.toList with
  | '/' :: _ => true
  | _ => false

/-- `os.chdir(p)` path resolution: an absolute path replaces the working
directory, a relative one is appended to it. -/
def resolvePath (cwd p : String) : String :=
  if isAbsolute p then p else cwd ++ "/" ++ p

/-- Write one file into a file-system map. -/
def setFile (p : String) (c : Bytes) (fs : String → Option Bytes) :
    String → Option Bytes :=
  fun q => if q = p then some c else fs q

/-- Overlay the files produced by extraction on top of a file system. -/
def overlayFS (ex : String → Option Bytes) (fs : String → Option Bytes) :
    String → Option Bytes :=
  fun q =>
    match ex q with
    | some c => some c
    | none => fs q

/-- `response.iter_content(n)`, fuelled so that it is structurally recursive:
chunks of `n` bytes, the last possibly shorter; an empty body yields no
chunks. The fuel is always instantiated with the body's length, which is
enough because every step consumes at least one byte. -/
def iterContentGo (n : Nat) : Nat → Bytes → List Bytes
  | _, [] => []
  | 0, _ :: _ => []
  | fuel + 1, x :: xs => (x :: xs.take (n - 1)) :: iterContentGo n fuel (xs.drop (n - 1))

/-- `response.iter_content(n)` over a whole body. -/
def iterContent (n : Nat) (b : Bytes) : List Bytes :=
  iterContentGo n b.length b

/-- `itertools.cycle(['-', '/', '|', '\\'])`: the four spinner glyphs. -/
def spinnerGlyphs : List Char := ['-', '/', '|', '\\']

/-- Glyph shown for the i-th chunk: the cycle repeats with period 4. -/
def spinnerChar (i : Nat) : Char := spinnerGlyphs.getD (i % 4) ' '

/-- Events of the download loop: for each chunk, one spinner glyph, one
backspace (`'\b'` = `'\x08'`), and the chunk written to the file. -/
def spinEvents (cs : List Bytes) : List Event :=
  (cs.enum.map (fun ic =>
    [Event.putChar (spinnerChar ic.1), Event.putChar '\x08', Event.chunkWrite ic.2])).flatten

/-- Result of the download phase: either terminate early, or continue with
the events emitted and the file system after the phase. -/
inductive DlResult where
  | stop (ev : List Event) (outcome : Outcome)
  | done (ev : List Event) (fs : String → Option Bytes)

/-- The download section of `main`: skip if the cache file exists, otherwise
GET the URL; a non-200 status hits the `str + int` concatenation in the
error `print` (raising `TypeError`); on 200 the body is streamed to the
cache file in 1024-byte chunks. -/
def downloadPhase (env : Env) (url filepath : String) : DlResult :=
  if (env.initFS filepath).isSome then
    .done [.printLine "File already exists, skipping download"] env.initFS
  else if env.status ≠ 200 then
    match pyAdd (.str "Received unexpected response code ") (.int env.status) with
    | .error m => .stop [.httpGet url] (.typeError m)
    | .ok v => .stop [.httpGet url, .printLine (pyStr v)] .exited
  else
    let cs := iterContent 1024 env.body
    .done (.httpGet url :: .printLine ("Saving as " ++ filepath) ::
            (spinEvents cs ++ [.writeFile filepath cs.flatten]))
          (setFile filepath cs.flatten env.initFS)

/-- `shutil.copy(src, ".")`: record the attempt with the current working
directory; if the source is missing raise `FileNotFoundError`, otherwise
write the file into `.` and print the final message. -/
def copyStep (cwd : String) (src : String) (ev : List Event)
    (fs : String → Option Bytes) : RunResult :=
  let ev1 := ev ++ [.copy src cwd]
  match fs src with
  | none => { events := ev1, fs := fs, cwd := cwd, outcome := .fileNotFound src }
  | some c =>
      { events := ev1 ++ [.printLine "Extraction complete!"],
        fs := setFile ("./" ++ lastSegment src) c fs,
        cwd := cwd, outcome := .completed }

/-- The extraction/installation section of `main`: per-platform external
commands (exit codes unchecked), working-directory changes for the windows
and macos branches, then the copy of the shared library into `.`. -/
def extractPhase (env : Env) (osArg filename filepath : String)
    (ev : List Event) (fs : String → Option Bytes) : RunResult :=
  let ev0 := ev ++ [.printLine "Download complete, extracting library..."]
  let archive := (fs filepath).getD []
  if osArg = "linux" then
    let ev1 := ev0 ++ [.system ("dpkg-deb -x " ++ filepath ++ " target/shared_lib/")]
    let fs1 := overlayFS (env.extractFS osArg archive) fs
    copyStep env.initCwd "target/shared_lib/usr/local/lib/libwkhtmltox.so" ev1 fs1
  else if osArg = "windows" then
    let oldpwd := env.initCwd
    let cwd1 := resolvePath oldpwd "target/shared_lib"
    let ev1 := ev0 ++ [.chdir "target/shared_lib", .system ("7z e " ++ filename),
                       .chdir oldpwd]
    let fs1 := overlayFS (env.extractFS osArg archive) fs
    copyStep (resolvePath cwd1 oldpwd) "target/shared_lib/wkhtmltox.dll" ev1 fs1
  else if osArg = "macos" then
    let oldpwd := env.initCwd
    let cwd1 := resolvePath oldpwd "target/shared_lib"
    let cwd2 := resolvePath cwd1 "usr/local/share/wkhtmltox-installer"
    let ev1 := ev0 ++ [.chdir "target/shared_lib", .system ("xar -xf " ++ filename),
                       .system "tar -xzf Payload",
                       .chdir "usr/local/share/wkhtmltox-installer",
                       .system "tar -xzf wkhtmltox.tar.gz", .chdir oldpwd]
    let fs1 := overlayFS (env.extractFS osArg archive) fs
    copyStep (resolvePath cwd2 oldpwd)
      "target/shared_lib/usr/local/share/wkhtmltox-installer/lib/libwkhtmltox.0.dylib"
      ev1 fs1
  else
    { events := ev0 ++ [.printLine "Extraction complete!"],
      fs := fs, cwd := env.initCwd, outcome := .completed }

/-- The whole of `main`, as a pure function of the environment and the
`os` command-line argument. -/
def runMain (env : Env) (osArg : String) : RunResult :=
  if osArg ∉ ["linux", "windows", "macos"] then
    { events := [.printLine "OS must be one of 'linux', 'windows', 'macos'"],
      fs := env.initFS, cwd := env.initCwd, outcome := .exited }
  else
    match artefacts.lookup osArg with
    | none =>
        { events := [.mkdir "target/shared_lib"],
          fs := env.initFS, cwd := env.initCwd, outcome := .keyError osArg }
    | some url =>
      let filename := lastSegment url
      let filepath := "target/shared_lib/" ++ filename
      match downloadPhase env url filepath with
      | .stop ev oc =>
          { events := Event.mkdir "target/shared_lib" :: ev,
            fs := env.initFS, cwd := env.initCwd, outcome := oc }
      | .done ev fs =>
          extractPhase env osArg filename filepath
            (Event.mkdir "target/shared_lib" :: ev) fs

/-- The filename the script computes for a platform's artefact:
`artefacts[os].split('/')[-1]`. -/
def cacheFilename (plat : String) : String :=
  lastSegment ((artefacts.lookup plat).getD "")

/-- The cache path `"target/shared_lib/" + filename`. -/
def cachePath (plat : String) : String :=
  "target/shared_lib/" ++ cacheFilename plat

/-- Source path of the final `shutil.copy` in each platform branch. -/
def srcPath (plat : String) : String :=
  if plat = "windows" then "target/shared_lib/wkhtmltox.dll"
  else if plat = "macos" then
    "target/shared_lib/usr/local/share/wkhtmltox-installer/lib/libwkhtmltox.0.dylib"
  else "target/shared_lib/usr/local/lib/libwkhtmltox.so"

/-- Path of the copied library in the invocation directory. -/
def destPath (plat : String) : String := "./" ++ lastSegment (srcPath plat)

/-- The first external extraction command each platform branch runs. -/
def firstExtractCmd (plat : String) : String :=
  if plat = "windows" then "7z e " ++ cacheFilename plat
  else if plat = "macos" then "xar -xf " ++ cacheFilename plat
  else "dpkg-deb -x " ++ cachePath plat ++ " target/shared_lib/"

/-- Modelled from the spec's words ("the substring after the last '/'"),
for comparison with the script's `split('/')[-1]` computation. -/
def specFinalSegment (s : String) : String :=
  String.mk ((s.toList.reverse.takeWhile (fun c => c ≠ '/')).reverse)

/-! ### Basic lemmas about the embedding -/

theorem artefacts_lookup_linux :
    artefacts.lookup "linux" =
      some "https://github.com/wkhtmltopdf/packaging/releases/download/0.12.6-1/wkhtmltox_0.12.6-1.bionic_amd64.deb" := rfl

theorem artefacts_lookup_windows :
    artefacts.lookup "windows" =
      some "https://github.com/wkhtmltopdf/packaging/releases/download/0.12.6-1/wkhtmltox-0.12.6-1.msvc2015-win64.exe" := rfl

theorem artefacts_lookup_macos :
    artefacts.lookup "macos" =
      some "https://github.com/wkhtmltopdf/packaging/releases/download/0.12.6-1/wkhtmltox-0.12.6-1.macos-cocoa.pkg" := rfl

theorem setFile_same (p : String) (c : Bytes) (fs : String → Option Bytes) :
    setFile p c fs p = some c := by
  simp [setFile]

theorem setFile_other (p q : String) (c : Bytes) (fs : String → Option Bytes)
    (h : q ≠ p) : setFile p c fs q = fs q := by
  simp [setFile, h]

theorem overlayFS_none (ex fs : String → Option Bytes) (q : String)
    (h : ex q = none) : overlayFS ex fs q = fs q := by
  simp [overlayFS, h]

theorem overlayFS_some (ex fs : String → Option Bytes) (q : String) (c : Bytes)
    (h : ex q = some c) : overlayFS ex fs q = some c := by
  simp [overlayFS, h]

/-- Flattening the chunks gives back the body (fuelled form). -/
theorem iterContentGo_flatten (n : Nat) :
    ∀ (fuel : Nat) (b : Bytes), b.length ≤ fuel →
      (iterContentGo n fuel b).flatten = b := by
  intro fuel
  induction fuel with
  | zero =>
    intro b hb
    cases b with
    | nil => rfl
    | cons x xs => simp at hb
  | succ fuel ih =>
    intro b hb
    cases b with
    | nil => rfl
    | cons x xs =>
      simp only [iterContentGo, List.flatten_cons]
      rw [ih (xs.drop (n - 1))]
      · simp [List.take_append_drop]
      · calc (xs.drop (n - 1)).length ≤ xs.length := by
              simp [List.length_drop]
          _ ≤ fuel := by simpa using hb

/-- `iter_content` loses no bytes: the chunks concatenate to the body. -/
theorem iterContent_flatten (n : Nat) (b : Bytes) :
    (iterContent n b).flatten = b :=
  iterContentGo_flatten n b.length b le_rfl

/-- Every chunk is nonempty and at most `n` bytes long (fuelled form). -/
theorem iterContentGo_chunk_size (n : Nat) (hn : n ≠ 0) :
    ∀ (fuel : Nat) (b : Bytes) (c : Bytes), c ∈ iterContentGo n fuel b →
      c ≠ [] ∧ c.length ≤ n := by
  intro fuel
  induction fuel with
  | zero =>
    intro b c hc
    cases b <;> simp [iterContentGo] at hc
  | succ fuel ih =>
    intro b c hc
    cases b with
    | nil => simp [iterContentGo] at hc
    | cons x xs =>
      simp only [iterContentGo, List.mem_cons] at hc
      rcases hc with rfl | hc
      · refine ⟨by simp, ?_⟩
        simp only [List.length_cons]
        have : (xs.take (n - 1)).length ≤ n - 1 := by
          simp [List.length_take]
        omega
      · exact ih (xs.drop (n - 1)) c hc

/-- Every chunk of `iter_content` is nonempty and at most `n` bytes. -/
theorem iterContent_chunk_size (n : Nat) (hn : n ≠ 0) (b : Bytes) (c : Bytes)
    (hc : c ∈ iterContent n b) : c ≠ [] ∧ c.length ≤ n :=
  iterContentGo_chunk_size n hn b.length b c hc

/-- Every chunk except possibly the last is exactly `n` bytes (fuelled). -/
theorem iterContentGo_chunk_full (n : Nat) (hn : n ≠ 0) :
    ∀ (fuel : Nat) (b : Bytes) (i : Nat),
      i + 1 < (iterContentGo n fuel b).length →
      ((iterContentGo n fuel b).getD i []).length = n := by
  intro fuel
  induction fuel with
  | zero =>
    intro b i hi
    cases b <;> simp [iterContentGo] at hi
  | succ fuel ih =>
    intro b i hi
    cases b with
    | nil => simp [iterContentGo] at hi
    | cons x xs =>
      simp only [iterContentGo, List.length_cons] at hi
      cases i with
      | zero =>
        have hrest : iterContentGo n fuel (xs.drop (n - 1)) ≠ [] := by
          intro hr
          rw [hr] at hi
          simp at hi
        have hdrop : xs.drop (n - 1) ≠ [] := by
          intro hd
          rw [hd] at hrest
          cases fuel <;> simp [iterContentGo] at hrest
        have hlen : n - 1 < xs.length := by
          by_contra hcon
          push_neg at hcon
          exact hdrop (List.drop_eq_nil_of_le hcon)
        simp only [iterContentGo, List.getD_cons_zero, List.length_cons,
          List.length_take]
        omega
      | succ j =>
        simp only [iterContentGo, List.getD_cons_succ]
        exact ih (xs.drop (n - 1)) j (by omega)

/-- Every chunk of `iter_content` except possibly the last is exactly `n`
bytes long. -/
theorem iterContent_chunk_full (n : Nat) (hn : n ≠ 0) (b : Bytes) (i : Nat)
    (hi : i + 1 < (iterContent n b).length) :
    ((iterContent n b).getD i []).length = n :=
  iterContentGo_chunk_full n hn b.length b i hi

/-! ### Equation lemmas for the phases of the run -/

theorem runMain_valid (env : Env) (plat url : String)
    (hmem : plat ∈ ["linux", "windows", "macos"])
    (hu : artefacts.lookup plat = some url) :
    runMain env plat =
      match downloadPhase env url ("target/shared_lib/" ++ lastSegment url) with
      | .stop ev oc =>
          { events := Event.mkdir "target/shared_lib" :: ev,
            fs := env.initFS, cwd := env.initCwd, outcome := oc }
      | .done ev fs =>
          extractPhase env plat (lastSegment url)
            ("target/shared_lib/" ++ lastSegment url)
            (Event.mkdir "target/shared_lib" :: ev) fs := by
  rw [runMain, if_neg (by simp [hmem]), hu]

theorem downloadPhase_skip (env : Env) (url fp : String) (c : Bytes)
    (h : env.initFS fp = some c) :
    downloadPhase env url fp =
      .done [.printLine "File already exists, skipping download"] env.initFS := by
  simp [downloadPhase, h]

theorem downloadPhase_badStatus (env : Env) (url fp : String)
    (h : env.initFS fp = none) (hst : env.status ≠ 200) :
    downloadPhase env url fp =
      .stop [.httpGet url]
        (.typeError "can only concatenate str (not int) to str") := by
  simp [downloadPhase, h, hst, pyAdd]

theorem downloadPhase_ok (env : Env) (url fp : String)
    (h : env.initFS fp = none) (hst : env.status = 200) :
    downloadPhase env url fp =
      .done (.httpGet url :: .printLine ("Saving as " ++ fp) ::
              (spinEvents (iterContent 1024 env.body) ++
                [.writeFile fp (iterContent 1024 env.body).flatten]))
            (setFile fp (iterContent 1024 env.body).flatten env.initFS) := by
  simp [downloadPhase, h, hst]

theorem copyStep_found (cwd src : String) (ev : List Event)
    (fs : String → Option Bytes) (c : Bytes) (h : fs src = some c) :
    copyStep cwd src ev fs =
      { events := ev ++ [.copy src cwd, .printLine "Extraction complete!"],
        fs := setFile ("./" ++ lastSegment src) c fs,
        cwd := cwd, outcome := .completed } := by
  simp [copyStep, h]

theorem copyStep_missing (cwd src : String) (ev : List Event)
    (fs : String → Option Bytes) (h : fs src = none) :
    copyStep cwd src ev fs =
      { events := ev ++ [.copy src cwd],
        fs := fs, cwd := cwd, outcome := .fileNotFound src } := by
  simp [copyStep, h]

theorem extractPhase_linux (env : Env) (filename fp : String)
    (ev : List Event) (fs : String → Option Bytes) :
    extractPhase env "linux" filename fp ev fs =
      copyStep env.initCwd "target/shared_lib/usr/local/lib/libwkhtmltox.so"
        (ev ++ [.printLine "Download complete, extracting library...",
                .system ("dpkg-deb -x " ++ fp ++ " target/shared_lib/")])
        (overlayFS (env.extractFS "linux" ((fs fp).getD [])) fs) := by
  simp [extractPhase]

theorem extractPhase_windows (env : Env) (filename fp : String)
    (ev : List Event) (fs : String → Option Bytes) :
    extractPhase env "windows" filename fp ev fs =
      copyStep (resolvePath (resolvePath env.initCwd "target/shared_lib") env.initCwd)
        "target/shared_lib/wkhtmltox.dll"
        (ev ++ [.printLine "Download complete, extracting library...",
                .chdir "target/shared_lib", .system ("7z e " ++ filename),
                .chdir env.initCwd])
        (overlayFS (env.extractFS "windows" ((fs fp).getD [])) fs) := by
  simp [extractPhase]

theorem extractPhase_macos (env : Env) (filename fp : String)
    (ev : List Event) (fs : String → Option Bytes) :
    extractPhase env "macos" filename fp ev fs =
      copyStep
        (resolvePath
          (resolvePath (resolvePath env.initCwd "target/shared_lib")
            "usr/local/share/wkhtmltox-installer")
          env.initCwd)
        "target/shared_lib/usr/local/share/wkhtmltox-installer/lib/libwkhtmltox.0.dylib"
        (ev ++ [.printLine "Download complete, extracting library...",
                .chdir "target/shared_lib", .system ("xar -xf " ++ filename),
                .system "tar -xzf Payload",
                .chdir "usr/local/share/wkhtmltox-installer",
                .system "tar -xzf wkhtmltox.tar.gz", .chdir env.initCwd])
        (overlayFS (env.extractFS "macos" ((fs fp).getD [])) fs) := by
  simp [extractPhase]

/-- Restoring an absolute saved working directory really restores it. -/
theorem resolvePath_absolute (cwd p : String) (h : isAbsolute p = true) :
    resolvePath cwd p = p := by
  simp [resolvePath, h]

/-- The working directory in effect at the final copy of each platform
branch (the saved `oldpwd`, re-resolved by the restoring `chdir`). -/
def branchCwd (env : Env) (plat : String) : String :=
  if plat = "windows" then
    resolvePath (resolvePath env.initCwd "target/shared_lib") env.initCwd
  else if plat = "macos" then
    resolvePath
      (resolvePath (resolvePath env.initCwd "target/shared_lib")
        "usr/local/share/wkhtmltox-installer")
      env.initCwd
  else env.initCwd

/-- When the invocation directory is absolute (as `os.getcwd()` guarantees),
the restoring `chdir(oldpwd)` puts the process back where it started. -/
theorem branchCwd_absolute (env : Env) (plat : String)
    (h : isAbsolute env.initCwd = true) : branchCwd env plat = env.initCwd := by
  unfold branchCwd
  split
  · exact resolvePath_absolute _ _ h
  · split
    · exact resolvePath_absolute _ _ h
    · rfl

theorem copyStep_cwd (cwd src : String) (ev : List Event)
    (fs : String → Option Bytes) : (copyStep cwd src ev fs).cwd = cwd := by
  unfold copyStep
  cases h : fs src <;> rfl

theorem copyStep_copy_event (cwd src : String) (ev : List Event)
    (fs : String → Option Bytes) :
    Event.copy src cwd ∈ (copyStep cwd src ev fs).events := by
  unfold copyStep
  cases h : fs src <;> simp

theorem copyStep_events_mem (cwd src : String) (ev : List Event)
    (fs : String → Option Bytes) (e : Event) (he : e ∈ ev) :
    e ∈ (copyStep cwd src ev fs).events := by
  unfold copyStep
  cases h : fs src <;> simp [he]

theorem copyStep_events_cases (cwd src : String) (ev : List Event)
    (fs : String → Option Bytes) (e : Event)
    (he : e ∈ (copyStep cwd src ev fs).events) :
    e ∈ ev ∨ e = .copy src cwd ∨ e = .printLine "Extraction complete!" := by
  unfold copyStep at he
  cases h : fs src <;> rw [h] at he <;> simp at he <;> tauto

theorem copyStep_events_append (cwd src : String) (ev : List Event)
    (fs : String → Option Bytes) :
    ∃ tail, (copyStep cwd src ev fs).events = ev ++ tail := by
  unfold copyStep
  cases h : fs src
  · exact ⟨[.copy src cwd], rfl⟩
  · exact ⟨[.copy src cwd, .printLine "Extraction complete!"], by simp⟩

/-- The extraction branch of a valid platform, summarised: some extraction
events `evx` (external commands and directory changes only, containing the
platform's first extraction command) followed by the copy of the shared
library, over the file system with the extraction output overlaid. -/
theorem extractPhase_eq (env : Env) (plat : String)
    (hmem : plat ∈ ["linux", "windows", "macos"])
    (ev : List Event) (fs : String → Option Bytes) :
    ∃ evx : List Event,
      extractPhase env plat (cacheFilename plat) (cachePath plat) ev fs =
        copyStep (branchCwd env plat) (srcPath plat)
          (ev ++ Event.printLine "Download complete, extracting library..." :: evx)
          (overlayFS (env.extractFS plat ((fs (cachePath plat)).getD [])) fs) ∧
      Event.system (firstExtractCmd plat) ∈ evx ∧
      ∀ e ∈ evx, (∃ cmd, e = Event.system cmd) ∨ ∃ d, e = Event.chdir d := by
  fin_cases hmem
  · refine ⟨[.system ("dpkg-deb -x " ++ cachePath "linux" ++ " target/shared_lib/")],
      ?_, ?_, ?_⟩
    · rw [extractPhase_linux]
      simp [branchCwd, srcPath]
    · simp [firstExtractCmd]
    · simp
  · refine ⟨[.chdir "target/shared_lib", .system ("7z e " ++ cacheFilename "windows"),
      .chdir env.initCwd], ?_, ?_, ?_⟩
    · rw [extractPhase_windows]
      simp [branchCwd, srcPath]
    · simp [firstExtractCmd]
    · simp
  · refine ⟨[.chdir "target/shared_lib",
      .system ("xar -xf " ++ cacheFilename "macos"), .system "tar -xzf Payload",
      .chdir "usr/local/share/wkhtmltox-installer",
      .system "tar -xzf wkhtmltox.tar.gz", .chdir env.initCwd], ?_, ?_, ?_⟩
    · rw [extractPhase_macos]
      simp [branchCwd, srcPath]
    · simp [firstExtractCmd]
    · simp

/-- A run whose cache file already exists: mkdir, skip notice, then the
extraction phase on the unchanged file system. -/
theorem runMain_skip_eq (env : Env) (plat : String)
    (hmem : plat ∈ ["linux", "windows", "macos"]) (c : Bytes)
    (h0 : env.initFS (cachePath plat) = some c) :
    runMain env plat =
      extractPhase env plat (cacheFilename plat) (cachePath plat)
        [.mkdir "target/shared_lib",
         .printLine "File already exists, skipping download"]
        env.initFS := by
  fin_cases hmem
  · simp only [cachePath, cacheFilename, artefacts_lookup_linux, Option.getD_some] at h0 ⊢
    rw [runMain_valid env "linux" _ (by decide) artefacts_lookup_linux,
        downloadPhase_skip env _ _ c h0]
  · simp only [cachePath, cacheFilename, artefacts_lookup_windows, Option.getD_some] at h0 ⊢
    rw [runMain_valid env "windows" _ (by decide) artefacts_lookup_windows,
        downloadPhase_skip env _ _ c h0]
  · simp only [cachePath, cacheFilename, artefacts_lookup_macos, Option.getD_some] at h0 ⊢
    rw [runMain_valid env "macos" _ (by decide) artefacts_lookup_macos,
        downloadPhase_skip env _ _ c h0]

/-- A run that downloads: mkdir, GET, saving notice, the spinner loop, the
cache file written with the whole body, then the extraction phase. -/
theorem runMain_ok_eq (env : Env) (plat : String)
    (hmem : plat ∈ ["linux", "windows", "macos"])
    (h0 : env.initFS (cachePath plat) = none) (hst : env.status = 200) :
    runMain env plat =
      extractPhase env plat (cacheFilename plat) (cachePath plat)
        (Event.mkdir "target/shared_lib" ::
          Event.httpGet ((artefacts.lookup plat).getD "") ::
          Event.printLine ("Saving as " ++ cachePath plat) ::
          (spinEvents (iterContent 1024 env.body) ++
            [Event.writeFile (cachePath plat) env.body]))
        (setFile (cachePath plat) env.body env.initFS) := by
  fin_cases hmem
  · simp only [cachePath, cacheFilename, artefacts_lookup_linux, Option.getD_some] at h0 ⊢
    rw [runMain_valid env "linux" _ (by decide) artefacts_lookup_linux,
        downloadPhase_ok env _ _ h0 hst, iterContent_flatten]
  · simp only [cachePath, cacheFilename, artefacts_lookup_windows, Option.getD_some] at h0 ⊢
    rw [runMain_valid env "windows" _ (by decide) artefacts_lookup_windows,
        downloadPhase_ok env _ _ h0 hst, iterContent_flatten]
  · simp only [cachePath, cacheFilename, artefacts_lookup_macos, Option.getD_some] at h0 ⊢
    rw [runMain_valid env "macos" _ (by decide) artefacts_lookup_macos,
        downloadPhase_ok env _ _ h0 hst, iterContent_flatten]

/-- The cache path and the copied library's destination are distinct files,
and the copy's source is yet another path. -/
theorem paths_distinct (plat : String)
    (hmem : plat ∈ ["linux", "windows", "macos"]) :
    cachePath plat ≠ destPath plat ∧ srcPath plat ≠ destPath plat ∧
    srcPath plat ≠ cachePath plat := by
  fin_cases hmem <;> exact ⟨by decide, by decide, by decide⟩

/-! ### Concrete demonstration environments -/

/-- An empty initial file system. -/
def fsEmpty : String → Option Bytes := fun _ => none

/-- A 404 response, nothing cached, extraction tools produce nothing. -/
def env404 : Env :=
  { initFS := fsEmpty, status := 404, body := [],
    extractFS := fun _ _ _ => none, initCwd := "/work" }

/-- A 200 response with a 3-byte body; the extraction tools turn the cached
archive into the shared library at the platform's source path and touch
nothing else. -/
def envDemo : Env :=
  { initFS := fsEmpty, status := 200, body := [1, 2, 3],
    extractFS := fun plat b p => if p = srcPath plat then some b else none,
    initCwd := "/work" }

/-- Like `envDemo` but with the linux artefact already cached. -/
def envCached : Env :=
  { envDemo with
    initFS := fun p => if p = cachePath "linux" then some [9, 9] else none }

/-- A 200 response but extraction tools that fail to produce any file. -/
def envNoExtract : Env :=
  { envDemo with extractFS := fun _ _ _ => none }

/-! ### The claims -/

/-- C1: the claim says a non-200 response makes the tool print a message
describing the unexpected status code and stop without writing the cache
file. The code does stop without writing the file, but it never prints the
message: `print("Received unexpected response code " + response.status_code)`
concatenates a `str` with the `int` status code, which raises `TypeError`
before anything is printed. At a mocked 404 for platform `linux` the run
ends in that `TypeError`, its only effects are the mkdir and the GET, and
no line at all is printed. -/
theorem C1_badStatus_typeError :
    (runMain env404 "linux").outcome =
      .typeError "can only concatenate str (not int) to str" ∧
    (runMain env404 "linux").fs (cachePath "linux") = none ∧
    (runMain env404 "linux").events =
      [.mkdir "target/shared_lib",
       .httpGet "https://github.com/wkhtmltopdf/packaging/releases/download/0.12.6-1/wkhtmltox_0.12.6-1.bionic_amd64.deb"] ∧
    ∀ s, Event.printLine s ∉ (runMain env404 "linux").events := by
  refine ⟨rfl, rfl, rfl, ?_⟩
  intro s hs
  rw [show (runMain env404 "linux").events =
      [.mkdir "target/shared_lib",
       .httpGet "https://github.com/wkhtmltopdf/packaging/releases/download/0.12.6-1/wkhtmltox_0.12.6-1.bionic_amd64.deb"]
    from rfl] at hs
  simp at hs

/-- C2: any platform argument outside {linux, windows, macos} produces only
the error message: the file system and working directory are untouched, no
directory is created, no file written, no request issued, and the run exits
cleanly. -/
theorem C2_invalid_platform_no_side_effects (env : Env) (osArg : String)
    (h : osArg ∉ ["linux", "windows", "macos"]) :
    (runMain env osArg).events =
      [.printLine "OS must be one of 'linux', 'windows', 'macos'"] ∧
    (runMain env osArg).fs = env.initFS ∧
    (runMain env osArg).cwd = env.initCwd ∧
    (runMain env osArg).outcome = .exited := by
  rw [runMain, if_pos h]
  exact ⟨rfl, rfl, rfl, rfl⟩

/-- C2 witness: the concrete rejected platform `freebsd`. -/
theorem C2_witness :
    (runMain env404 "freebsd").events =
      [.printLine "OS must be one of 'linux', 'windows', 'macos'"] ∧
    (runMain env404 "freebsd").fs = env404.initFS ∧
    (runMain env404 "freebsd").cwd = env404.initCwd ∧
    (runMain env404 "freebsd").outcome = .exited :=
  C2_invalid_platform_no_side_effects env404 "freebsd" (by decide)

/-- C10: the platform strings accepted by the validity check are exactly the
keys of the `artefacts` registry, so `artefacts[args.os]` is defined for
every accepted platform. -/
theorem C10_valid_iff_registered (s : String) :
    s ∈ ["linux", "windows", "macos"] ↔ (artefacts.lookup s).isSome := by
  by_cases h1 : s = "linux"
  · subst h1; decide
  · by_cases h2 : s = "windows"
    · subst h2; decide
    · by_cases h3 : s = "macos"
      · subst h3; decide
      · have e1 : (s == "linux") = false := beq_eq_false_iff_ne.mpr h1
        have e2 : (s == "windows") = false := beq_eq_false_iff_ne.mpr h2
        have e3 : (s == "macos") = false := beq_eq_false_iff_ne.mpr h3
        simp [artefacts, List.lookup, e1, e2, e3, h1, h2, h3]

/-- C7: for every valid platform, the cache filename is the final path
segment of the platform's URL (it agrees with the spec's "substring after
the last '/'" on that URL), and the downloaded file is written at
`target/shared_lib/<filename>`. -/
theorem C7_cache_filename (plat : String)
    (hmem : plat ∈ ["linux", "windows", "macos"]) (env : Env)
    (h0 : env.initFS (cachePath plat) = none) (hst : env.status = 200) :
    cacheFilename plat = specFinalSegment ((artefacts.lookup plat).getD "") ∧
    cachePath plat = "target/shared_lib/" ++ cacheFilename plat ∧
    Event.writeFile (cachePath plat) env.body ∈ (runMain env plat).events := by
  refine ⟨?_, rfl, ?_⟩
  · fin_cases hmem <;> decide
  · rw [runMain_ok_eq env plat hmem h0 hst]
    obtain ⟨evx, heq, _, _⟩ := extractPhase_eq env plat hmem _ _
    rw [heq]
    apply copyStep_events_mem
    simp

/-- C7 witness: platform `linux` in the demo environment. -/
theorem C7_witness :
    cacheFilename "linux" =
      specFinalSegment ((artefacts.lookup "linux").getD "") ∧
    cachePath "linux" = "target/shared_lib/" ++ cacheFilename "linux" ∧
    Event.writeFile (cachePath "linux") envDemo.body ∈
      (runMain envDemo "linux").events :=
  C7_cache_filename "linux" (by decide) envDemo rfl rfl

/-- C5: on a 200 response with no pre-existing cache file, the script writes
to the cache path exactly the concatenation, in order, of the streamed
chunks — which is byte-for-byte the response body. -/
theorem C5_download_writes_body (plat : String)
    (hmem : plat ∈ ["linux", "windows", "macos"]) (env : Env)
    (h0 : env.initFS (cachePath plat) = none) (hst : env.status = 200) :
    (iterContent 1024 env.body).flatten = env.body ∧
    Event.writeFile (cachePath plat) ((iterContent 1024 env.body).flatten) ∈
      (runMain env plat).events := by
  refine ⟨iterContent_flatten 1024 env.body, ?_⟩
  rw [iterContent_flatten, runMain_ok_eq env plat hmem h0 hst]
  obtain ⟨evx, heq, _, _⟩ := extractPhase_eq env plat hmem _ _
  rw [heq]
  apply copyStep_events_mem
  simp

/-- C5 witness: platform `linux`, body `[1, 2, 3]`. -/
theorem C5_witness :
    (iterContent 1024 envDemo.body).flatten = envDemo.body ∧
    Event.writeFile (cachePath "linux")
        ((iterContent 1024 envDemo.body).flatten) ∈
      (runMain envDemo "linux").events :=
  C5_download_writes_body "linux" (by decide) envDemo rfl rfl

/-- C4: when the cache file is already present for a valid platform, the run
issues no HTTP request, prints the skip notice, and still performs the
platform's extraction command and attempts the copy. -/
theorem C4_cached_skips_download (plat : String)
    (hmem : plat ∈ ["linux", "windows", "macos"]) (env : Env) (c : Bytes)
    (h0 : env.initFS (cachePath plat) = some c) :
    (∀ u, Event.httpGet u ∉ (runMain env plat).events) ∧
    Event.printLine "File already exists, skipping download" ∈
      (runMain env plat).events ∧
    Event.system (firstExtractCmd plat) ∈ (runMain env plat).events ∧
    ∃ d, Event.copy (srcPath plat) d ∈ (runMain env plat).events := by
  rw [runMain_skip_eq env plat hmem c h0]
  obtain ⟨evx, heq, hsys, hshape⟩ := extractPhase_eq env plat hmem _ _
  rw [heq]
  refine ⟨?_, ?_, ?_, ?_⟩
  · intro u hu
    rcases copyStep_events_cases _ _ _ _ _ hu with hin | he | he
    · simp at hin
      rcases hshape _ hin with ⟨cmd, hc⟩ | ⟨d, hc⟩ <;> simp at hc
    · simp at he
    · simp at he
  · apply copyStep_events_mem
    simp
  · apply copyStep_events_mem
    simp [hsys]
  · exact ⟨branchCwd env plat, copyStep_copy_event _ _ _ _⟩

/-- C4 witness: the linux artefact already cached in `envCached`. -/
theorem C4_witness :
    (∀ u, Event.httpGet u ∉ (runMain envCached "linux").events) ∧
    Event.printLine "File already exists, skipping download" ∈
      (runMain envCached "linux").events ∧
    Event.system (firstExtractCmd "linux") ∈ (runMain envCached "linux").events ∧
    ∃ d, Event.copy (srcPath "linux") d ∈ (runMain envCached "linux").events :=
  C4_cached_skips_download "linux" (by decide) envCached [9, 9] rfl

/-- C3 counterexample: a linux run whose extraction tools produce no file:
the final copy raises `FileNotFoundError` and the run ends WITHOUT printing
"Extraction complete!", so the message is not printed regardless of whether
the copy step succeeded. -/
theorem C3_counterexample :
    (runMain envNoExtract "linux").outcome =
      .fileNotFound "target/shared_lib/usr/local/lib/libwkhtmltox.so" ∧
    Event.printLine "Extraction complete!" ∉
      (runMain envNoExtract "linux").events := by
  exact ⟨rfl, by decide⟩

/-- C3 amended: every run that reaches the extraction phase prints the final
"Extraction complete!" message regardless of whether the external
extraction commands succeeded (their exit status is never consulted),
provided the final copy finds its source file; when the copy raises, the
message is not printed (see the counterexample). -/
theorem C3_extraction_message (plat : String)
    (hmem : plat ∈ ["linux", "windows", "macos"]) (env : Env)
    (hreach : (∃ c, env.initFS (cachePath plat) = some c) ∨
      (env.initFS (cachePath plat) = none ∧ env.status = 200))
    (hsrc : ∀ b, ∃ c, env.extractFS plat b (srcPath plat) = some c) :
    Event.printLine "Extraction complete!" ∈ (runMain env plat).events ∧
    (runMain env plat).outcome = .completed := by
  rcases hreach with ⟨c0, h0⟩ | ⟨h0, hst⟩
  · rw [runMain_skip_eq env plat hmem c0 h0]
    obtain ⟨evx, heq, hsys, hshape⟩ := extractPhase_eq env plat hmem _ _
    rw [heq]
    obtain ⟨c, hc⟩ := hsrc ((env.initFS (cachePath plat)).getD [])
    rw [copyStep_found _ _ _ _ c (overlayFS_some _ _ _ _ hc)]
    exact ⟨by simp, rfl⟩
  · rw [runMain_ok_eq env plat hmem h0 hst]
    obtain ⟨evx, heq, hsys, hshape⟩ := extractPhase_eq env plat hmem _ _
    rw [heq]
    obtain ⟨c, hc⟩ :=
      hsrc ((setFile (cachePath plat) env.body env.initFS (cachePath plat)).getD [])
    rw [copyStep_found _ _ _ _ c (overlayFS_some _ _ _ _ hc)]
    exact ⟨by simp, rfl⟩

/-- C3 witness: a linux run in `envDemo`, whose extraction produces the
library, prints the completion message. -/
theorem C3_witness :
    Event.printLine "Extraction complete!" ∈ (runMain envDemo "linux").events ∧
    (runMain envDemo "linux").outcome = .completed :=
  C3_extraction_message "linux" (by decide) envDemo (Or.inr ⟨rfl, rfl⟩)
    (fun b => ⟨b, rfl⟩)

/-- C8: in the windows and macos branches the working directory after the
extraction steps equals the directory saved before them (`os.getcwd()`
returns an absolute path), so the final copy's `.` refers to the original
invocation directory. -/
theorem C8_cwd_restored (plat : String) (hmem2 : plat ∈ ["windows", "macos"])
    (env : Env) (habs : isAbsolute env.initCwd = true)
    (hreach : (∃ c, env.initFS (cachePath plat) = some c) ∨
      (env.initFS (cachePath plat) = none ∧ env.status = 200)) :
    (runMain env plat).cwd = env.initCwd ∧
    Event.copy (srcPath plat) env.initCwd ∈ (runMain env plat).events := by
  have hmem : plat ∈ ["linux", "windows", "macos"] := by
    fin_cases hmem2 <;> decide
  rcases hreach with ⟨c0, h0⟩ | ⟨h0, hst⟩
  · rw [runMain_skip_eq env plat hmem c0 h0]
    obtain ⟨evx, heq, _, _⟩ := extractPhase_eq env plat hmem _ _
    rw [heq, branchCwd_absolute env plat habs]
    exact ⟨copyStep_cwd _ _ _ _, copyStep_copy_event _ _ _ _⟩
  · rw [runMain_ok_eq env plat hmem h0 hst]
    obtain ⟨evx, heq, _, _⟩ := extractPhase_eq env plat hmem _ _
    rw [heq, branchCwd_absolute env plat habs]
    exact ⟨copyStep_cwd _ _ _ _, copyStep_copy_event _ _ _ _⟩

/-- C8 witness: platform `windows` in `envDemo` (initial directory `/work`). -/
theorem C8_witness :
    (runMain envDemo "windows").cwd = envDemo.initCwd ∧
    Event.copy (srcPath "windows") envDemo.initCwd ∈
      (runMain envDemo "windows").events :=
  C8_cwd_restored "windows" (by decide) envDemo rfl (Or.inr ⟨rfl, rfl⟩)

/-- C9 counterexample: with a 3-byte body the download loop writes a single
chunk of 3 bytes, not 1024, so the body is not written in fixed-size chunks
of 1024 bytes. -/
theorem C9_counterexample :
    Event.chunkWrite [1, 2, 3] ∈ (runMain envDemo "linux").events ∧
    ([1, 2, 3] : Bytes).length ≠ 1024 := by
  exact ⟨by decide, by decide⟩

/-- C9 amended: the body is consumed and written in chunks of AT MOST 1024
bytes — every chunk is nonempty, every chunk except possibly the last is
exactly 1024 bytes, and the chunks concatenate to the body — and the
download loop emits, for each chunk in order, exactly one glyph of the
cycling 4-glyph sequence '-', '/', '|', '\\' followed by a single
backspace, then writes the chunk. -/
theorem C9_download_loop (plat : String)
    (hmem : plat ∈ ["linux", "windows", "macos"]) (env : Env)
    (h0 : env.initFS (cachePath plat) = none) (hst : env.status = 200) :
    (∃ pre suf, (runMain env plat).events =
      pre ++ spinEvents (iterContent 1024 env.body) ++ suf) ∧
    spinEvents (iterContent 1024 env.body) =
      ((iterContent 1024 env.body).enum.map (fun ic =>
        [Event.putChar (spinnerGlyphs.getD (ic.1 % 4) ' '),
         Event.putChar '\x08', Event.chunkWrite ic.2])).flatten ∧
    (∀ c ∈ iterContent 1024 env.body, c ≠ [] ∧ c.length ≤ 1024) ∧
    (∀ i, i + 1 < (iterContent 1024 env.body).length →
      ((iterContent 1024 env.body).getD i []).length = 1024) ∧
    (iterContent 1024 env.body).flatten = env.body := by
  refine ⟨?_, rfl,
    fun c hc => iterContent_chunk_size 1024 (by decide) env.body c hc,
    fun i hi => iterContent_chunk_full 1024 (by decide) env.body i hi,
    iterContent_flatten 1024 env.body⟩
  rw [runMain_ok_eq env plat hmem h0 hst]
  obtain ⟨evx, heq, _, _⟩ := extractPhase_eq env plat hmem _ _
  rw [heq]
  obtain ⟨tail, ht⟩ := copyStep_events_append _ _ _ _
  rw [ht]
  refine ⟨[Event.mkdir "target/shared_lib",
    Event.httpGet ((artefacts.lookup plat).getD ""),
    Event.printLine ("Saving as " ++ cachePath plat)],
    Event.writeFile (cachePath plat) env.body ::
      (Event.printLine "Download complete, extracting library..." :: evx) ++ tail,
    ?_⟩
  simp

/-- The environment a second, back-to-back run executes against: the file
system and working directory the first run left behind. -/
def secondEnv (env : Env) (plat : String) : Env :=
  { env with initFS := (runMain env plat).fs, initCwd := (runMain env plat).cwd }

/-- C6: running the tool twice for the same valid platform (cache initially
empty, download succeeding, the extraction tools deterministic, leaving the
cached archive in place and producing the library at its source path): both
runs leave the same copied library file `some c` at the destination, and
the second run skips the download entirely (no request, skip notice
printed) while still re-running the extraction command and re-copying. -/
theorem C6_two_runs_same_library (plat : String)
    (hmem : plat ∈ ["linux", "windows", "macos"]) (env : Env)
    (h0 : env.initFS (cachePath plat) = none) (hst : env.status = 200)
    (hexArch : ∀ b, env.extractFS plat b (cachePath plat) = none)
    (c : Bytes) (hsrc : env.extractFS plat env.body (srcPath plat) = some c) :
    (runMain env plat).fs (destPath plat) = some c ∧
    (runMain (secondEnv env plat) plat).fs (destPath plat) = some c ∧
    (∀ u, Event.httpGet u ∉ (runMain (secondEnv env plat) plat).events) ∧
    Event.printLine "File already exists, skipping download" ∈
      (runMain (secondEnv env plat) plat).events ∧
    Event.system (firstExtractCmd plat) ∈
      (runMain (secondEnv env plat) plat).events ∧
    ∃ d, Event.copy (srcPath plat) d ∈
      (runMain (secondEnv env plat) plat).events := by
  obtain ⟨hne1, hne2, hne3⟩ := paths_distinct plat hmem
  -- the first run, fully evaluated
  obtain ⟨evx1, heq1, hsys1, hshape1⟩ := extractPhase_eq env plat hmem
    (Event.mkdir "target/shared_lib" ::
      Event.httpGet ((artefacts.lookup plat).getD "") ::
      Event.printLine ("Saving as " ++ cachePath plat) ::
      (spinEvents (iterContent 1024 env.body) ++
        [Event.writeFile (cachePath plat) env.body]))
    (setFile (cachePath plat) env.body env.initFS)
  have hfs1src : overlayFS (env.extractFS plat env.body)
      (setFile (cachePath plat) env.body env.initFS) (srcPath plat) = some c :=
    overlayFS_some _ _ _ _ hsrc
  have hr1 : runMain env plat =
      { events := (Event.mkdir "target/shared_lib" ::
          Event.httpGet ((artefacts.lookup plat).getD "") ::
          Event.printLine ("Saving as " ++ cachePath plat) ::
          (spinEvents (iterContent 1024 env.body) ++
            [Event.writeFile (cachePath plat) env.body]) ++
          Event.printLine "Download complete, extracting library..." :: evx1) ++
          [.copy (srcPath plat) (branchCwd env plat),
           .printLine "Extraction complete!"],
        fs := setFile (destPath plat) c
          (overlayFS (env.extractFS plat env.body)
            (setFile (cachePath plat) env.body env.initFS)),
        cwd := branchCwd env plat, outcome := .completed } := by
    rw [runMain_ok_eq env plat hmem h0 hst, heq1, setFile_same, Option.getD_some,
        copyStep_found _ _ _ _ c hfs1src]
    rfl
  have hfs1 : (runMain env plat).fs (destPath plat) = some c := by
    rw [hr1]
    exact setFile_same _ _ _
  refine ⟨hfs1, ?_⟩
  -- the cache file survives the first run with the body as content
  have h0' : (secondEnv env plat).initFS (cachePath plat) = some env.body := by
    show (runMain env plat).fs (cachePath plat) = some env.body
    rw [hr1]
    show setFile (destPath plat) c _ (cachePath plat) = some env.body
    simp [setFile, overlayFS, hne1, hexArch]
  -- the second run
  obtain ⟨evx2, heq2, hsys2, hshape2⟩ := extractPhase_eq (secondEnv env plat)
    plat hmem
    [.mkdir "target/shared_lib",
     .printLine "File already exists, skipping download"]
    (secondEnv env plat).initFS
  have hfs2src : overlayFS ((secondEnv env plat).extractFS plat
      (((secondEnv env plat).initFS (cachePath plat)).getD []))
      ((secondEnv env plat).initFS) (srcPath plat) = some c := by
    rw [h0']
    exact overlayFS_some _ _ _ _ hsrc
  have hr2 : runMain (secondEnv env plat) plat =
      { events := ([Event.mkdir "target/shared_lib",
          Event.printLine "File already exists, skipping download"] ++
          Event.printLine "Download complete, extracting library..." :: evx2) ++
          [.copy (srcPath plat) (branchCwd (secondEnv env plat) plat),
           .printLine "Extraction complete!"],
        fs := setFile (destPath plat) c
          (overlayFS ((secondEnv env plat).extractFS plat
            (((secondEnv env plat).initFS (cachePath plat)).getD []))
            ((secondEnv env plat).initFS)),
        cwd := branchCwd (secondEnv env plat) plat,
        outcome := .completed } := by
    rw [runMain_skip_eq (secondEnv env plat) plat hmem env.body h0', heq2,
        copyStep_found _ _ _ _ c hfs2src]
    rfl
  refine ⟨?_, ?_, ?_, ?_, ?_⟩
  · rw [hr2]
    exact setFile_same _ _ _
  · intro u hu
    rw [hr2] at hu
    simp at hu
    rcases hshape2 _ hu with ⟨cmd, hc⟩ | ⟨d, hc⟩ <;> simp at hc
  · rw [hr2]
    simp
  · rw [hr2]
    simp
    tauto
  · refine ⟨branchCwd (secondEnv env plat) plat, ?_⟩
    rw [hr2]
    simp

/-- C6 witness: two linux runs in `envDemo`; the copied library is
`[1, 2, 3]` after both. -/
theorem C6_witness :
    (runMain envDemo "linux").fs (destPath "linux") = some [1, 2, 3] ∧
    (runMain (secondEnv envDemo "linux") "linux").fs (destPath "linux") =
      some [1, 2, 3] ∧
    (∀ u, Event.httpGet u ∉ (runMain (secondEnv envDemo "linux") "linux").events) ∧
    Event.printLine "File already exists, skipping download" ∈
      (runMain (secondEnv envDemo "linux") "linux").events ∧
    Event.system (firstExtractCmd "linux") ∈
      (runMain (secondEnv envDemo "linux") "linux").events ∧
    ∃ d, Event.copy (srcPath "linux") d ∈
      (runMain (secondEnv envDemo "linux") "linux").events :=
  C6_two_runs_same_library "linux" (by decide) envDemo rfl rfl
    (fun b => rfl) [1, 2, 3] rfl

/-- C9 witness: platform `linux`, 3-byte body, one chunk. -/
theorem C9_witness :
    (∃ pre suf, (runMain envDemo "linux").events =
      pre ++ spinEvents (iterContent 1024 envDemo.body) ++ suf) ∧
    spinEvents (iterContent 1024 envDemo.body) =
      ((iterContent 1024 envDemo.body).enum.map (fun ic =>
        [Event.putChar (spinnerGlyphs.getD (ic.1 % 4) ' '),
         Event.putChar '\x08', Event.chunkWrite ic.2])).flatten ∧
    (∀ c ∈ iterContent 1024 envDemo.body, c ≠ [] ∧ c.length ≤ 1024) ∧
    (∀ i, i + 1 < (iterContent 1024 envDemo.body).length →
      ((iterContent 1024 envDemo.body).getD i []).length = 1024) ∧
    (iterContent 1024 envDemo.body).flatten = envDemo.body :=
  C9_download_loop "linux" (by decide) envDemo rfl rfl
